import Mathlib

/-!
Verification of the margin-tracker core: the derived-metrics formula library,
the field/record validator, the analytics aggregator, the retry executor and
the per-row live-editing synchronizer, embedded shallowly over `ℚ`.

JavaScript `number` values are modelled as rational numbers; the source never
relies on floating-point rounding for the properties treated here, and the
string-parsing (`parseFloat`) branches of the validator are outside the
embedded value domain (every value reaching the embedded code is either a
number or absent).
-/

namespace MarginTracker

/-! ## Business constants (src/constants/business.ts) -/

def CURRENCY_DIVISOR : ℚ := 6.2

def MARGIN_THRESHOLDS_LOW : ℚ := 15

def MARGIN_THRESHOLDS_MEDIUM : ℚ := 22

/-! ## Formula library (src/utils/marginCalculations.ts) -/

inductive MarginStatus where
  | low
  | medium
  | high
deriving DecidableEq, Repr

/-- `calculateLC`: landed cost `(price * rate) / CURRENCY_DIVISOR`. -/
def calculateLC (price rate : ℚ) : ℚ :=
  (price * rate) / CURRENCY_DIVISOR

/-- `calculateMargin`: `((revenue - cost) / revenue) * 100`, guarded by
`if (revenue <= 0) return 0`. -/
def calculateMargin (revenue cost : ℚ) : ℚ :=
  if revenue ≤ 0 then 0 else ((revenue - cost) / revenue) * 100

/-- `getMarginStatus`: three-way classifier on the margin percentage. -/
def getMarginStatus (margin : ℚ) : MarginStatus :=
  if margin < MARGIN_THRESHOLDS_LOW then .low
  else if margin < MARGIN_THRESHOLDS_MEDIUM then .medium
  else .high

/-- `calculateVal1 = price / CURRENCY_DIVISOR`. -/
def calculateVal1 (price : ℚ) : ℚ :=
  price / CURRENCY_DIVISOR

/-- `calculateVal2 = val1 / pack`, guarded by `if (pack <= 0) return 0`. -/
def calculateVal2 (val1 pack : ℚ) : ℚ :=
  if pack ≤ 0 then 0 else val1 / pack

/-- `calculateTotalCost = lc + extraCost`. -/
def calculateTotalCost (lc extraCost : ℚ) : ℚ :=
  lc + extraCost

structure StyleMetricsInput where
  price : ℚ
  rate : ℚ
  extraCost : ℚ
  sellingPrice : ℚ
  units : ℚ
  pack : ℚ
deriving DecidableEq, Repr

structure StyleMetrics where
  lc : ℚ
  totalCost : ℚ
  revenue : ℚ
  profit : ℚ
  margin : ℚ
  profitPerPack : ℚ
  val1 : ℚ
  val2 : ℚ
  marginStatus : MarginStatus
deriving DecidableEq, Repr

/-- `calculateStyleMetrics` (src/utils/marginCalculations.ts): all derived
values for one style record. -/
def calculateStyleMetrics (params : StyleMetricsInput) : StyleMetrics :=
  let lc := calculateLC params.price params.rate
  let totalCost := calculateTotalCost lc params.extraCost
  let revenue := params.sellingPrice * params.units
  let totalExpenses := totalCost * params.units
  let profit := revenue - totalExpenses
  let margin := calculateMargin revenue totalExpenses
  let profitPerPack := if params.units > 0 then profit / params.units else 0
  let val1 := calculateVal1 params.price
  let val2 := calculateVal2 val1 params.pack
  { lc := lc, totalCost := totalCost, revenue := revenue, profit := profit,
    margin := margin, profitPerPack := profitPerPack, val1 := val1,
    val2 := val2, marginStatus := getMarginStatus margin }

/-! ## The `useMarginCalculator` hook (src/hooks/useMarginCalculator.ts)

The hook receives a `Partial<StyleRecord>` and defaults each numeric field
with JavaScript `||` — a falsy check, under which both an absent field and a
present `0` fall back to the default. -/

/-- JavaScript `v || d` on an optional number: `undefined` and `0` are both
falsy and yield the default. -/
def jsOr (v : Option ℚ) (d : ℚ) : ℚ :=
  match v with
  | none => d
  | some x => if x = 0 then d else x

/-- The numeric fields of a `Partial<StyleRecord>` as passed to the hook. -/
structure StyleInputs where
  units : Option ℚ
  pack : Option ℚ
  price : Option ℚ
  rate : Option ℚ
  extraCost : Option ℚ
  sellingPrice : Option ℚ
deriving DecidableEq, Repr

/-- The defaulting front of `useMarginCalculator`:
`units = style.units || 0`, …, `pack = style.pack || 1`. -/
def useMarginCalculatorInput (style : StyleInputs) : StyleMetricsInput :=
  { units := jsOr style.units 0
    pack := jsOr style.pack 1
    price := jsOr style.price 0
    rate := jsOr style.rate 0
    extraCost := jsOr style.extraCost 0
    sellingPrice := jsOr style.sellingPrice 0 }

/-- Numeric core of `useMarginCalculator`: the hook computes exactly the
formula-library values on the defaulted inputs (its own inline formulas are
the same expressions). -/
def useMarginCalculator (style : StyleInputs) : StyleMetrics :=
  calculateStyleMetrics (useMarginCalculatorInput style)

/-! ## Validator (src/utils/validation.ts)

Field values are modelled as `Option ℚ`: `none` stands for
`undefined`/`null`/empty string (the "value is absent" cases of the source's
emptiness check), `some q` for a present numeric value.  The
`parseFloat`/`isNaN` branch for unparsable strings is outside this domain. -/

def VALIDATION_MIN_RATE : ℚ := 1

def VALIDATION_MAX_RATE : ℚ := 200

def VALIDATION_MIN_PRICE : ℚ := 0

def VALIDATION_MIN_UNITS : ℚ := 1

def VALIDATION_MAX_UNITS : ℚ := 1000000

def VALIDATION_MIN_PACK : ℚ := 1

def VALIDATION_MAX_PACK : ℚ := 10000

def MAX_BACKOFF_MS : ℚ := 30000

/-- `validatePositiveNumber(value, fieldName, {min, max, required, integer})`.
`max = none` models the default `Infinity`; the integrality test
`Number.isInteger` is `q.den = 1` on rationals. -/
def validatePositiveNumber (value : Option ℚ) (fieldName : String)
    (min : ℚ) (max : Option ℚ) (required integer : Bool) : Option String :=
  match value with
  | none =>
    if !required then none
    else some (fieldName ++ " is required")
  | some num =>
    if integer && !(num.den = 1 : Bool) then
      some (fieldName ++ " must be a positive integer")
    else if num < min then
      (if min = 0 then some (fieldName ++ " must be 0 or greater")
       else some (fieldName ++ " must be at least " ++ toString min))
    else
      match max with
      | some m =>
        if num > m then
          some (fieldName ++ " must be between " ++ toString min ++ " and " ++ toString m)
        else none
      | none => none

inductive NumField where
  | units
  | pack
  | price
  | rate
  | extraCost
  | sellingPrice
deriving DecidableEq, Repr

/-- `validateField(field, value)` — one rule per numeric field.  For `price`
and `sellingPrice` the source appends
`|| (Number(value) <= 0 ? '... must be a positive number' : null)`;
that fallback only runs when the first validator returned `null`, in which
case the value is present (the field is required). -/
def validateField (field : NumField) (value : Option ℚ) : Option String :=
  match field with
  | .units =>
    validatePositiveNumber value "Units" VALIDATION_MIN_UNITS
      (some VALIDATION_MAX_UNITS) true true
  | .pack =>
    validatePositiveNumber value "Pack" VALIDATION_MIN_PACK
      (some VALIDATION_MAX_PACK) true true
  | .price =>
    match validatePositiveNumber value "Price" VALIDATION_MIN_PRICE none true false with
    | some m => some m
    | none =>
      if (match value with | some q => q ≤ 0 | none => false : Bool) then
        some "Price must be a positive number"
      else none
  | .rate =>
    validatePositiveNumber value "Rate" VALIDATION_MIN_RATE
      (some VALIDATION_MAX_RATE) true false
  | .extraCost =>
    validatePositiveNumber value "Extra cost" 0 none false false
  | .sellingPrice =>
    match validatePositiveNumber value "Selling price" VALIDATION_MIN_PRICE none true false with
    | some m => some m
    | none =>
      if (match value with | some q => q ≤ 0 | none => false : Bool) then
        some "Selling price must be a positive number"
      else none

/-- The six numeric fields of `StyleValidationData`, in the order
`validateStyleData` iterates them. -/
def styleDataFields : List NumField :=
  [.units, .pack, .price, .rate, .extraCost, .sellingPrice]

structure StyleValidationData where
  units : Option ℚ
  pack : Option ℚ
  price : Option ℚ
  rate : Option ℚ
  extraCost : Option ℚ
  sellingPrice : Option ℚ
deriving DecidableEq, Repr

def StyleValidationData.get (d : StyleValidationData) : NumField → Option ℚ
  | .units => d.units
  | .pack => d.pack
  | .price => d.price
  | .rate => d.rate
  | .extraCost => d.extraCost
  | .sellingPrice => d.sellingPrice

structure ValidationResult where
  isValid : Bool
  errors : List (NumField × String)
deriving DecidableEq, Repr

/-- `validateStyleData(data)`: run all six field rules, collect the errors,
and report `isValid` iff no rule produced a message. -/
def validateStyleData (data : StyleValidationData) : ValidationResult :=
  let errors := styleDataFields.filterMap fun field =>
    (validateField field (data.get field)).map fun msg => (field, msg)
  { isValid := errors.length = 0, errors := errors }

/-! ## Style records (src/hooks/useMarginCalculator.ts `StyleRecord`) -/

structure StyleRecord where
  id : String
  customer : String
  styleId : String
  factory : String
  deliveryDate : String
  description : String
  fabricTrim : String
  type : String
  units : ℚ
  pack : ℚ
  price : ℚ
  rate : ℚ
  extraCost : ℚ
  sellingPrice : ℚ
deriving DecidableEq, Repr

def StyleRecord.getNum (s : StyleRecord) : NumField → ℚ
  | .units => s.units
  | .pack => s.pack
  | .price => s.price
  | .rate => s.rate
  | .extraCost => s.extraCost
  | .sellingPrice => s.sellingPrice

def StyleRecord.setNum (s : StyleRecord) : NumField → ℚ → StyleRecord
  | .units, v => { s with units := v }
  | .pack, v => { s with pack := v }
  | .price, v => { s with price := v }
  | .rate, v => { s with rate := v }
  | .extraCost, v => { s with extraCost := v }
  | .sellingPrice, v => { s with sellingPrice := v }

/-- The validator view of a full record: every field is present. -/
def StyleRecord.toValidationData (s : StyleRecord) : StyleValidationData :=
  { units := some s.units, pack := some s.pack, price := some s.price,
    rate := some s.rate, extraCost := some s.extraCost,
    sellingPrice := some s.sellingPrice }

/-! ## Metrics aggregator (Analytics component `useAnalyticsData`) -/

/-- JavaScript `q || d` on a present number: `0` is falsy. -/
def jsOrNum (q d : ℚ) : ℚ :=
  if q = 0 then d else q

structure RowMetrics where
  revenue : ℚ
  profit : ℚ
  margin : ℚ
  units : ℚ
deriving DecidableEq, Repr

/-- The Analytics component's per-record `calculateStyleMetrics`: falsy-default
each field of the record, run the shared formula library, and keep
revenue/profit/margin/units. -/
def analyticsRowMetrics (style : StyleRecord) : RowMetrics :=
  let units := jsOrNum style.units 0
  let price := jsOrNum style.price 0
  let rate := jsOrNum style.rate 0
  let extraCost := jsOrNum style.extraCost 0
  let sellingPrice := jsOrNum style.sellingPrice 0
  let pack := jsOrNum style.pack 1
  let metrics := calculateStyleMetrics
    { price := price, rate := rate, extraCost := extraCost,
      sellingPrice := sellingPrice, units := units, pack := pack }
  { revenue := metrics.revenue, profit := metrics.profit,
    margin := metrics.margin, units := units }

structure MarginBrackets where
  negative : Nat
  low : Nat
  medium : Nat
  good : Nat
  excellent : Nat
deriving DecidableEq, Repr

structure AnalyticsAcc where
  totalRevenue : ℚ
  totalProfit : ℚ
  totalUnits : ℚ
  belowTarget : Nat
  atRisk : Nat
  marginBrackets : MarginBrackets
deriving DecidableEq, Repr

def analyticsInit : AnalyticsAcc :=
  { totalRevenue := 0, totalProfit := 0, totalUnits := 0,
    belowTarget := 0, atRisk := 0,
    marginBrackets :=
      { negative := 0, low := 0, medium := 0, good := 0, excellent := 0 } }

/-- One iteration of the `styles.forEach` accumulation loop. -/
def analyticsStep (acc : AnalyticsAcc) (style : StyleRecord) : AnalyticsAcc :=
  let metrics := analyticsRowMetrics style
  let acc :=
    { acc with
      totalRevenue := acc.totalRevenue + metrics.revenue
      totalProfit := acc.totalProfit + metrics.profit
      totalUnits := acc.totalUnits + metrics.units }
  if metrics.margin < 0 then
    { acc with marginBrackets :=
        { acc.marginBrackets with negative := acc.marginBrackets.negative + 1 } }
  else if metrics.margin < MARGIN_THRESHOLDS_LOW then
    { acc with
      marginBrackets :=
        { acc.marginBrackets with low := acc.marginBrackets.low + 1 }
      belowTarget := acc.belowTarget + 1 }
  else if metrics.margin < MARGIN_THRESHOLDS_MEDIUM then
    { acc with
      marginBrackets :=
        { acc.marginBrackets with medium := acc.marginBrackets.medium + 1 }
      atRisk := acc.atRisk + 1 }
  else if metrics.margin < 30 then
    { acc with marginBrackets :=
        { acc.marginBrackets with good := acc.marginBrackets.good + 1 } }
  else
    { acc with marginBrackets :=
        { acc.marginBrackets with excellent := acc.marginBrackets.excellent + 1 } }

structure AnalyticsData where
  totalRevenue : ℚ
  totalProfit : ℚ
  weightedAvgMargin : ℚ
  totalUnits : ℚ
  belowTarget : Nat
  atRisk : Nat
  marginBrackets : MarginBrackets
  totalItems : Nat
deriving DecidableEq, Repr

/-- `useAnalyticsData(styles)`: fold all records, then
`weightedAvgMargin = totalRevenue > 0 ? (totalProfit / totalRevenue) * 100 : 0`. -/
def useAnalyticsData (styles : List StyleRecord) : AnalyticsData :=
  let acc := styles.foldl analyticsStep analyticsInit
  { totalRevenue := acc.totalRevenue
    totalProfit := acc.totalProfit
    weightedAvgMargin :=
      if acc.totalRevenue > 0 then (acc.totalProfit / acc.totalRevenue) * 100 else 0
    totalUnits := acc.totalUnits
    belowTarget := acc.belowTarget
    atRisk := acc.atRisk
    marginBrackets := acc.marginBrackets
    totalItems := styles.length }

/-! ## Resilient operation executor (`withRetry`, src/utils/validation.ts)

The asynchronous loop is embedded as a pure recursion over the number of
retries still allowed.  A run records, besides the final result, the
`onRetry` callback invocations `(attempt, error)` in order, the sleep
durations in milliseconds, and how many times the operation was invoked.
The operation itself is modelled as a function from the (1-based) attempt
number to that attempt's outcome. -/

structure RetryErr where
  status : Option Nat
  message : String
deriving DecidableEq, Repr

inductive RetryResult (α : Type) where
  | ok (v : α)
  | err (e : RetryErr)
  | badConfig
deriving DecidableEq, Repr

structure RetryTrace (α : Type) where
  result : RetryResult α
  retryCalls : List (Nat × RetryErr)
  delays : List ℚ
  attemptsUsed : Nat
deriving DecidableEq, Repr

/-- Does the character list start with the pattern? (Helper for JavaScript
`String.prototype.includes`.) -/
def charsStartWith : List Char → List Char → Bool
  | _, [] => true
  | [], _ :: _ => false
  | c :: cs, p :: ps => c = p && charsStartWith cs ps

/-- Does the pattern occur somewhere in the character list? -/
def charsContain : List Char → List Char → Bool
  | [], pat => charsStartWith [] pat
  | c :: rest, pat => charsStartWith (c :: rest) pat || charsContain rest pat

/-- JavaScript `s.includes(sub)`: substring occurrence. -/
def jsIncludes (s sub : String) : Bool :=
  charsContain s.data sub.data

/-- JavaScript `s.toLowerCase()` (over the ASCII range the source tests). -/
def jsToLower (s : String) : String :=
  String.mk (s.data.map Char.toLower)

/-- The message-text fallback classification: the lowercased message contains
`400`, `401`, `403`, `404` or `validation`. -/
def msgHasTerminalText (message : String) : Bool :=
  let m := jsToLower message
  jsIncludes m "400" || jsIncludes m "401" || jsIncludes m "403" ||
    jsIncludes m "404" || jsIncludes m "validation"

/-- `err.status && err.status >= 400 && err.status < 500` (a status of `0`
is falsy in JavaScript). -/
def statusIs4xx (status : Option Nat) : Bool :=
  match status with
  | some s => s != 0 && 400 ≤ s && s < 500
  | none => false

/-- The attempt loop of `withRetry`.  `rest` is the number of attempts still
allowed after the current one (`maxRetries - attempt`), so `rest > 0` is the
source's retry condition `attempt < maxRetries`.  When `rest = 0`, every
failure classification ends the run with the current (= last) error:
429 and terminal classes rethrow inside the loop and the transient class
falls out of the loop into `throw lastError`. -/
def withRetryGo {α : Type} (op : Nat → Except RetryErr α) (delayMs : ℚ) :
    Nat → Nat → RetryTrace α
  | rest, attempt =>
    match op attempt, rest with
    | .ok v, _ =>
      { result := .ok v, retryCalls := [], delays := [], attemptsUsed := 1 }
    | .error e, 0 =>
      { result := .err e, retryCalls := [], delays := [], attemptsUsed := 1 }
    | .error e, r + 1 =>
      if e.status = some 429 then
        let t := withRetryGo op delayMs r (attempt + 1)
        { result := t.result
          retryCalls := (attempt, e) :: t.retryCalls
          delays := delayMs * attempt * 2 :: t.delays
          attemptsUsed := t.attemptsUsed + 1 }
      else if statusIs4xx e.status then
        { result := .err e, retryCalls := [], delays := [], attemptsUsed := 1 }
      else if msgHasTerminalText e.message then
        { result := .err e, retryCalls := [], delays := [], attemptsUsed := 1 }
      else
        let t := withRetryGo op delayMs r (attempt + 1)
        { result := t.result
          retryCalls := (attempt, e) :: t.retryCalls
          delays := min (delayMs * 2 ^ (attempt - 1)) MAX_BACKOFF_MS :: t.delays
          attemptsUsed := t.attemptsUsed + 1 }

/-- `withRetry(operation, maxRetries, delayMs, onRetry)`: reject
`maxRetries < 1`, otherwise run attempts `1 .. maxRetries`. -/
def withRetry {α : Type} (op : Nat → Except RetryErr α)
    (maxRetries : Nat) (delayMs : ℚ) : RetryTrace α :=
  if maxRetries < 1 then
    { result := .badConfig, retryCalls := [], delays := [], attemptsUsed := 0 }
  else
    withRetryGo op delayMs (maxRetries - 1) 1

/-! ## Live record synchronizer (`DashboardRow`, src/components/Dashboard.tsx)

Per-row React state embedded as an explicit state record, with one step
function per event handler / effect.  `JSON.stringify` equality of records is
record equality.  `errors` keeps the JavaScript object semantics of
`setErrors({...prev, [field]: error || undefined})`: the key stays present
(`field in errors` is true) even when its value is `undefined`, so it is an
association list from fields to `Option String`. -/

inductive SaveStatus where
  | idle
  | pending
  | saving
  | success
  | error
deriving DecidableEq, Repr

structure RowState where
  /-- The `style` prop: the parent's (last-confirmed / externally pushed)
  snapshot of the record. -/
  styleProp : StyleRecord
  /-- `previousStyleRef.current`. -/
  prevStyleRef : StyleRecord
  /-- `localStyle`: the locally-displayed, optimistically edited snapshot. -/
  localStyle : StyleRecord
  /-- `debouncedStyle`: the debounced copy of `localStyle`. -/
  debouncedStyle : StyleRecord
  saveStatus : SaveStatus
  hasUnsavedChanges : Bool
  errors : List (NumField × Option String)
  touchedFields : List NumField
deriving DecidableEq, Repr

/-- Mount state of a row for a record `style`. -/
def initRow (style : StyleRecord) : RowState :=
  { styleProp := style, prevStyleRef := style, localStyle := style,
    debouncedStyle := style, saveStatus := .idle, hasUnsavedChanges := false,
    errors := [], touchedFields := [] }

/-- `{...prev, [field]: v}` on the error object. -/
def setError (errors : List (NumField × Option String)) (field : NumField)
    (v : Option String) : List (NumField × Option String) :=
  (field, v) :: errors.filter (fun p => p.1 ≠ field)

/-- `field in errors`. -/
def errorKeyPresent (errors : List (NumField × Option String))
    (field : NumField) : Bool :=
  errors.any (fun p => p.1 = field)

/-- The external-push reconciliation effect: the parent replaced the `style`
prop with the pushed record; the row applies it only when it changed since
last seen and there are no unsaved local edits. -/
def applyExternalPush (s : RowState) (pushed : StyleRecord) : RowState :=
  let s := { s with styleProp := pushed }
  if pushed ≠ s.prevStyleRef then
    if !s.hasUnsavedChanges then
      { s with localStyle := pushed, errors := [], touchedFields := [],
               prevStyleRef := pushed }
    else
      { s with prevStyleRef := pushed }
  else
    s

/-- `handleChange(field, value)`: optimistic local update, mark dirty,
re-validate the field if it was already tracked, status `pending`.  (Of the
numeric fields only `units`, `price`, `rate`, `extraCost` and `sellingPrice`
are reachable from the row's inputs; `pack` is rendered read-only.) -/
def handleChange (s : RowState) (field : NumField) (value : ℚ) : RowState :=
  let errors :=
    if errorKeyPresent s.errors field || s.touchedFields.contains field then
      setError s.errors field (validateField field (some value))
    else s.errors
  { s with localStyle := s.localStyle.setNum field value,
           hasUnsavedChanges := true, errors := errors,
           saveStatus := .pending }

/-- `handleBlur(field)`: eager per-field validation feedback. -/
def handleBlur (s : RowState) (field : NumField) : RowState :=
  { s with touchedFields := field :: s.touchedFields,
           errors := setError s.errors field
             (validateField field (some (s.localStyle.getNum field))) }

/-- `hasValidationErrors()`: the save gate checks the five row-editable
numeric fields (`pack` is not in its list). -/
def hasValidationErrors (localStyle : StyleRecord) : Bool :=
  [NumField.units, .price, .rate, .extraCost, .sellingPrice].any fun field =>
    (validateField field (some (localStyle.getNum field))).isSome

/-- The `performSave` effect body, given whether the wrapped
`onUpdate` persist resolves successfully.  Returns the resulting state and
whether a network persist call was made. -/
def performSave (s : RowState) (saveSucceeds : Bool) : RowState × Bool :=
  if s.debouncedStyle ≠ s.styleProp && s.hasUnsavedChanges then
    if hasValidationErrors s.localStyle then
      ({ s with saveStatus := .error }, false)
    else if saveSucceeds then
      ({ s with saveStatus := .success, hasUnsavedChanges := false,
                errors := [], touchedFields := [] }, true)
    else
      ({ s with saveStatus := .error, localStyle := s.styleProp,
                hasUnsavedChanges := false }, true)
  else
    (s, false)

/-- The debounce timer settling: `debouncedStyle` catches up with
`localStyle` and the auto-save effect runs. -/
def debounceFire (s : RowState) (saveSucceeds : Bool) : RowState × Bool :=
  performSave { s with debouncedStyle := s.localStyle } saveSucceeds

/-- The `setTimeout(() => setSaveStatus('idle'), …)` callbacks scheduled by
both the success (1500 ms) and failure (2000 ms) branches. -/
def statusTimeout (s : RowState) : RowState :=
  { s with saveStatus := .idle }

/-! ## Concrete inputs used by the claims -/

/-- The spec's reference-example input (sample TP131). -/
def refInput : StyleMetricsInput :=
  { price := 13.95, rate := 42, extraCost := 23, sellingPrice := 129.5,
    units := 1500, pack := 2 }

/-- The hook input of the spec's pack-present-and-zero scenario. -/
def packZeroInput : StyleInputs :=
  { units := some 10, pack := some 0, price := some 6.2, rate := some 42,
    extraCost := some 0, sellingPrice := some 100 }

/-- A benign, fully valid style record. -/
def recBase : StyleRecord :=
  { id := "r1", customer := "c1", styleId := "TP1", factory := "F",
    deliveryDate := "", description := "", fabricTrim := "", type := "",
    units := 5, pack := 2, price := 10, rate := 42, extraCost := 0,
    sellingPrice := 100 }

/-- `recBase` with a different unit count (a local edit's result). -/
def recAlt : StyleRecord := { recBase with units := 7 }

/-- A server record whose `pack` is present and zero. -/
def recPack0 : StyleRecord := { recBase with pack := 0 }

/-- Aggregation example record A: revenue 1000, margin 50%. -/
def recA : StyleRecord :=
  { recBase with
    styleId := "A"
    units := 100
    pack := 1
    price := 0
    rate := 0
    extraCost := 5
    sellingPrice := 10 }

/-- Aggregation example record B: revenue 9000, margin 10%. -/
def recB : StyleRecord :=
  { recBase with
    styleId := "B"
    units := 100
    pack := 1
    price := 0
    rate := 0
    extraCost := 81
    sellingPrice := 90 }

/-- A 429 rate-limit error. -/
def e429 : RetryErr := { status := some 429, message := "rate limited" }

/-- A 404 terminal error. -/
def e404 : RetryErr := { status := some 404, message := "not found" }

/-- A status-less error whose message text names a 404. -/
def eMsg404 : RetryErr := { status := none, message := "Error 404: missing" }

/-- A status-less transient error. -/
def eNet : RetryErr := { status := none, message := "socket hang up" }

/-- Fails with 429 on attempts 1-3, succeeds on attempt 4. -/
def op429ThenOk : Nat → Except RetryErr Nat :=
  fun n => if n ≤ 3 then .error e429 else .ok 42

/-- Always fails with 429. -/
def opAlways429 : Nat → Except RetryErr Nat :=
  fun _ => .error e429

/-- Fails with 404 on every attempt. -/
def op404 : Nat → Except RetryErr Nat :=
  fun _ => .error e404

/-- Fails on every attempt with a status-less error naming 404 in its text. -/
def opMsg404 : Nat → Except RetryErr Nat :=
  fun _ => .error eMsg404

/-- Row state with a locally edited, still valid snapshot whose debounce has
settled, ready to save. -/
def rowReadyToSave : RowState :=
  { initRow recBase with
    localStyle := recAlt
    debouncedStyle := recAlt
    hasUnsavedChanges := true
    saveStatus := .pending }

/-- Row state whose local edit is invalid (negative price). -/
def rowInvalidEdit : RowState :=
  { initRow recBase with
    localStyle := recBase.setNum .price (-1)
    debouncedStyle := recBase.setNum .price (-1)
    hasUnsavedChanges := true
    saveStatus := .pending }

/-- A dirty row state. -/
def rowDirty : RowState :=
  { initRow recBase with hasUnsavedChanges := true, saveStatus := .pending }

/-- Trace for the external-push counterexample: edit `units`, let the save
succeed, let the status timer return the row to idle.  The parent's prop has
not yet caught up with the saved value. -/
def rowAfterOwnSave : RowState :=
  statusTimeout (debounceFire (handleChange (initRow recBase) .units 7) true).1

/-- Trace for the save-gate counterexample: a server record with `pack = 0`
receives a valid `units` edit. -/
def rowPack0Edited : RowState :=
  handleChange (initRow recPack0) .units 10

/-! # Theorems -/

/-- C1: for inputs `{price: 13.95, rate: 42.00, extraCost: 23.00,
sellingPrice: 129.50, units: 1500, pack: 2}` with currency divisor 6.2, the
derived-metrics computation returns landedCost 94.50, totalCostPerUnit
117.50, revenue 194250, totalProfit 18000, marginPercent within 0.005 of
9.27, profitPerUnit 12.00, val1 2.25 and val2 1.125. -/
theorem C1_reference_example :
    (calculateStyleMetrics refInput).lc = 94.5 ∧
    (calculateStyleMetrics refInput).totalCost = 117.5 ∧
    (calculateStyleMetrics refInput).revenue = 194250 ∧
    (calculateStyleMetrics refInput).profit = 18000 ∧
    |(calculateStyleMetrics refInput).margin - 9.27| < 1 / 200 ∧
    (calculateStyleMetrics refInput).profitPerPack = 12 ∧
    (calculateStyleMetrics refInput).val1 = 2.25 ∧
    (calculateStyleMetrics refInput).val2 = 1.125 := by
  have hm : (calculateStyleMetrics refInput).margin = 2400 / 259 := by
    norm_num [calculateStyleMetrics, calculateMargin, calculateLC,
      calculateTotalCost, CURRENCY_DIVISOR, refInput]
  have habs : |(2400 / 259 : ℚ) - 9.27| < 1 / 200 := by
    rw [abs_sub_lt_iff]
    constructor <;> norm_num
  refine ⟨?_, ?_, ?_, ?_, ?_, ?_, ?_, ?_⟩ <;>
    first
      | (rw [hm]; exact habs)
      | norm_num [calculateStyleMetrics, calculateLC, calculateTotalCost,
          calculateMargin, calculateVal1, calculateVal2, CURRENCY_DIVISOR,
          refInput]

/-- C2: the claim says a present-but-zero `pack` is kept (so `val2 = 0`
through the `pack > 0` guard) and only an absent field is defaulted.  The
hook instead defaults with the falsy `style.pack || 1`, so `pack = 0` is
treated exactly like an absent `pack`: the input
`{units: 10, pack: 0, price: 6.2, rate: 42, extraCost: 0, sellingPrice: 100}`
yields `val2 = val1 / 1 = 1`, identical to the same input with `pack`
removed, whereas honouring `pack = 0` would give `val2 = 0`. -/
theorem C2_pack_zero_treated_as_absent :
    (useMarginCalculator packZeroInput).val2 = 1 ∧
    useMarginCalculator packZeroInput =
      useMarginCalculator { packZeroInput with pack := none } ∧
    calculateVal2 (calculateVal1 6.2) 0 = 0 ∧ (1 : ℚ) ≠ 0 := by
  refine ⟨?_, ?_, ?_, ?_⟩ <;>
    norm_num [useMarginCalculator, useMarginCalculatorInput, packZeroInput,
      jsOr, calculateStyleMetrics, calculateLC, calculateTotalCost,
      calculateMargin, calculateVal1, calculateVal2, getMarginStatus,
      CURRENCY_DIVISOR, MARGIN_THRESHOLDS_LOW, MARGIN_THRESHOLDS_MEDIUM]

/-- C9: with `units = 0` (so revenue = 0) the derived-metrics computation
returns `marginPercent = 0` and `profitPerUnit = 0`, through the
`revenue > 0` and `units > 0` guards. -/
theorem C9_units_zero_guards (price rate extraCost sellingPrice pack : ℚ) :
    (calculateStyleMetrics
      { price := price, rate := rate, extraCost := extraCost,
        sellingPrice := sellingPrice, units := 0, pack := pack }).margin = 0 ∧
    (calculateStyleMetrics
      { price := price, rate := rate, extraCost := extraCost,
        sellingPrice := sellingPrice, units := 0, pack := pack }).profitPerPack = 0 := by
  constructor <;>
    simp [calculateStyleMetrics, calculateMargin]

theorem analyticsStep_totalRevenue (acc : AnalyticsAcc) (s : StyleRecord) :
    (analyticsStep acc s).totalRevenue =
      acc.totalRevenue + (analyticsRowMetrics s).revenue := by
  simp only [analyticsStep]
  split_ifs <;> rfl

theorem analyticsStep_totalProfit (acc : AnalyticsAcc) (s : StyleRecord) :
    (analyticsStep acc s).totalProfit =
      acc.totalProfit + (analyticsRowMetrics s).profit := by
  simp only [analyticsStep]
  split_ifs <;> rfl

theorem analytics_foldl_totals (styles : List StyleRecord) (acc : AnalyticsAcc) :
    (styles.foldl analyticsStep acc).totalRevenue =
      acc.totalRevenue + (styles.map fun s => (analyticsRowMetrics s).revenue).sum ∧
    (styles.foldl analyticsStep acc).totalProfit =
      acc.totalProfit + (styles.map fun s => (analyticsRowMetrics s).profit).sum := by
  induction styles generalizing acc with
  | nil => simp
  | cons h t ih =>
    simp only [List.foldl_cons, List.map_cons, List.sum_cons]
    refine ⟨?_, ?_⟩
    · rw [(ih (analyticsStep acc h)).1, analyticsStep_totalRevenue]
      ring
    · rw [(ih (analyticsStep acc h)).2, analyticsStep_totalProfit]
      ring

/-- C8: for every record collection the aggregator's weighted average margin
is `(sum of profits / sum of revenues) * 100` when the total revenue is
positive and `0` otherwise; on records A (revenue 1000, margin 50%) and
B (revenue 9000, margin 10%) it is 14%, not the simple mean 30%. -/
theorem C8_weighted_average_margin :
    (∀ styles : List StyleRecord,
      (useAnalyticsData styles).weightedAvgMargin =
        if 0 < (styles.map fun s => (analyticsRowMetrics s).revenue).sum then
          ((styles.map fun s => (analyticsRowMetrics s).profit).sum /
            (styles.map fun s => (analyticsRowMetrics s).revenue).sum) * 100
        else 0) ∧
    (analyticsRowMetrics recA).revenue = 1000 ∧
    (analyticsRowMetrics recA).margin = 50 ∧
    (analyticsRowMetrics recB).revenue = 9000 ∧
    (analyticsRowMetrics recB).margin = 10 ∧
    (useAnalyticsData [recA, recB]).weightedAvgMargin = 14 ∧
    ((50 : ℚ) + 10) / 2 = 30 ∧ (14 : ℚ) ≠ 30 := by
  refine ⟨?_, ?_, ?_, ?_, ?_, ?_, by norm_num, by norm_num⟩
  · intro styles
    have h1 : (styles.foldl analyticsStep analyticsInit).totalRevenue =
        (styles.map fun s => (analyticsRowMetrics s).revenue).sum := by
      rw [(analytics_foldl_totals styles analyticsInit).1]
      simp [analyticsInit]
    have h2 : (styles.foldl analyticsStep analyticsInit).totalProfit =
        (styles.map fun s => (analyticsRowMetrics s).profit).sum := by
      rw [(analytics_foldl_totals styles analyticsInit).2]
      simp [analyticsInit]
    simp only [useAnalyticsData, h1, h2, gt_iff_lt]
  all_goals
    norm_num [useAnalyticsData, analyticsStep, analyticsInit,
      analyticsRowMetrics, jsOrNum, calculateStyleMetrics, calculateLC,
      calculateTotalCost, calculateMargin, calculateVal1, calculateVal2,
      getMarginStatus, CURRENCY_DIVISOR, MARGIN_THRESHOLDS_LOW,
      MARGIN_THRESHOLDS_MEDIUM, recA, recB, recBase]


theorem withRetryGo_constFail_zero {α : Type} (e : RetryErr) (d : ℚ) (attempt : Nat) :
    withRetryGo (fun _ => (Except.error e : Except RetryErr α)) d 0 attempt =
      { result := .err e, retryCalls := [], delays := [], attemptsUsed := 1 } := rfl

theorem withRetryGo_constFail_succ {α : Type} (e : RetryErr) (d : ℚ) (r attempt : Nat) :
    withRetryGo (fun _ => (Except.error e : Except RetryErr α)) d (r + 1) attempt =
      (if e.status = some 429 then
        let t := withRetryGo (fun _ => (Except.error e : Except RetryErr α)) d r (attempt + 1)
        { result := t.result
          retryCalls := (attempt, e) :: t.retryCalls
          delays := d * attempt * 2 :: t.delays
          attemptsUsed := t.attemptsUsed + 1 }
      else if statusIs4xx e.status then
        { result := .err e, retryCalls := [], delays := [], attemptsUsed := 1 }
      else if msgHasTerminalText e.message then
        { result := .err e, retryCalls := [], delays := [], attemptsUsed := 1 }
      else
        let t := withRetryGo (fun _ => (Except.error e : Except RetryErr α)) d r (attempt + 1)
        { result := t.result
          retryCalls := (attempt, e) :: t.retryCalls
          delays := min (d * 2 ^ (attempt - 1)) MAX_BACKOFF_MS :: t.delays
          attemptsUsed := t.attemptsUsed + 1 }) := rfl

theorem withRetryGo_transient_fail {α : Type} (e : RetryErr) (d : ℚ)
    (h429 : e.status ≠ some 429) (h4xx : statusIs4xx e.status = false)
    (hmsg : msgHasTerminalText e.message = false) :
    ∀ rest attempt : Nat,
      withRetryGo (fun _ => (Except.error e : Except RetryErr α)) d rest attempt =
        { result := .err e
          retryCalls := (List.range' attempt rest).map fun a => (a, e)
          delays := (List.range' attempt rest).map fun a =>
            min (d * 2 ^ (a - 1)) MAX_BACKOFF_MS
          attemptsUsed := rest + 1 } := by
  intro rest
  induction rest with
  | zero =>
    intro attempt
    rw [withRetryGo_constFail_zero]
    simp
  | succ r ih =>
    intro attempt
    rw [withRetryGo_constFail_succ, if_neg h429]
    simp only [h4xx, hmsg, Bool.false_eq_true, if_false]
    rw [ih (attempt + 1)]
    simp [List.range'_succ]

theorem withRetryGo_429_fail {α : Type} (e : RetryErr) (d : ℚ)
    (h429 : e.status = some 429) :
    ∀ rest attempt : Nat,
      withRetryGo (fun _ => (Except.error e : Except RetryErr α)) d rest attempt =
        { result := .err e
          retryCalls := (List.range' attempt rest).map fun a => (a, e)
          delays := (List.range' attempt rest).map fun a => d * a * 2
          attemptsUsed := rest + 1 } := by
  intro rest
  induction rest with
  | zero =>
    intro attempt
    rw [withRetryGo_constFail_zero]
    simp
  | succ r ih =>
    intro attempt
    rw [withRetryGo_constFail_succ, if_pos h429]
    rw [ih (attempt + 1)]
    simp [List.range'_succ]


/-- C4: an operation failing with a 4xx status other than 429 (404 in
particular) is attempted exactly once, no retry callback fires and its error
is rethrown; an operation failing with 429 three times under
`maxAttempts = 4` then succeeding returns the success after 4 attempts with
the retry callback invoked exactly 3 times at increasing attempt numbers
1, 2, 3. -/
theorem C4_retry_classification :
    (∀ (α : Type) (op : Nat → Except RetryErr α) (mr : Nat) (d : ℚ)
        (e : RetryErr) (s : Nat),
      1 ≤ mr → op 1 = .error e → e.status = some s → 400 ≤ s → s < 500 →
      s ≠ 429 →
      withRetry op mr d =
        { result := .err e, retryCalls := [], delays := [],
          attemptsUsed := 1 }) ∧
    withRetry op429ThenOk 4 1000 =
      { result := .ok 42, retryCalls := [(1, e429), (2, e429), (3, e429)],
        delays := [2000, 4000, 6000], attemptsUsed := 4 } := by
  constructor
  · intro α op mr d e s hmr hop hst h400 h500 hne
    have h4xx : statusIs4xx e.status = true := by
      rw [hst]
      simp only [statusIs4xx, Bool.and_eq_true, decide_eq_true_eq,
        bne_iff_ne, ne_eq]
      omega
    have h429 : ¬e.status = some 429 := by
      rw [hst]
      simp only [Option.some.injEq]
      omega
    unfold withRetry
    rw [if_neg (by omega)]
    cases hr : mr - 1 with
    | zero => simp [withRetryGo, hop]
    | succ r => simp [withRetryGo, hop, h429, h4xx]
  · norm_num [withRetry, withRetryGo, op429ThenOk, e429, statusIs4xx,
      msgHasTerminalText]

theorem C4_witness :
    withRetry op404 3 1000 =
      { result := .err e404, retryCalls := [], delays := [],
        attemptsUsed := 1 } ∧
    withRetry op429ThenOk 4 1000 =
      { result := .ok 42, retryCalls := [(1, e429), (2, e429), (3, e429)],
        delays := [2000, 4000, 6000], attemptsUsed := 4 } :=
  ⟨C4_retry_classification.1 Nat op404 3 1000 e404 404 (by decide) rfl rfl
      (by decide) (by decide) (by decide),
    C4_retry_classification.2⟩

/-- C5 counterexample: with base delay 1000 and four attempts all failing
with 429, the delay before the 3rd retry is `1000 * 3 * 2 = 6000`, not twice
the transient exponential backoff `2 * min(1000 * 2^(3-1), cap) = 8000`. -/
theorem C5_counterexample :
    (withRetry opAlways429 4 1000).delays = [2000, 4000, 6000] ∧
    2 * min ((1000 : ℚ) * 2 ^ (3 - 1)) MAX_BACKOFF_MS = 8000 ∧
    (withRetry opAlways429 4 1000).delays.getD 2 0 = 6000 ∧
    (6000 : ℚ) ≠ 8000 := by
  refine ⟨?_, ?_, ?_, by norm_num⟩ <;>
    norm_num [withRetry, withRetryGo, opAlways429, e429, MAX_BACKOFF_MS,
      min_def]

/-- C5 amended: the delay before the n-th retry of a transient failure is
`min(baseDelay * 2^(n-1), MAX_BACKOFF_CAP)` as claimed, but the delay before
the n-th retry of a rate-limited (429) failure is `baseDelay * n * 2` —
linear and uncapped — which is twice the transient delay only for the first
two retries. -/
theorem C5_backoff_schedules (d : ℚ) (mr : Nat) (e : RetryErr)
    (hmr : 1 ≤ mr) :
    (e.status ≠ some 429 → statusIs4xx e.status = false →
      msgHasTerminalText e.message = false →
      (withRetry (fun _ => (Except.error e : Except RetryErr Nat)) mr d).delays =
        (List.range' 1 (mr - 1)).map fun n =>
          min (d * 2 ^ (n - 1)) MAX_BACKOFF_MS) ∧
    (e.status = some 429 →
      (withRetry (fun _ => (Except.error e : Except RetryErr Nat)) mr d).delays =
        (List.range' 1 (mr - 1)).map fun n => d * n * 2) := by
  constructor
  · intro h429 h4xx hmsg
    unfold withRetry
    rw [if_neg (by omega), withRetryGo_transient_fail e d h429 h4xx hmsg]
  · intro h429
    unfold withRetry
    rw [if_neg (by omega), withRetryGo_429_fail e d h429]

theorem C5_witness :
    (withRetry (fun _ => (Except.error eNet : Except RetryErr Nat)) 3 1000).delays =
      (List.range' 1 2).map (fun n => min ((1000 : ℚ) * 2 ^ (n - 1)) MAX_BACKOFF_MS) ∧
    (withRetry (fun _ => (Except.error e429 : Except RetryErr Nat)) 3 1000).delays =
      (List.range' 1 2).map fun n => (1000 : ℚ) * n * 2 :=
  ⟨(C5_backoff_schedules 1000 3 eNet (by decide)).1 (by decide) (by decide)
      (by decide),
    (C5_backoff_schedules 1000 3 e429 (by decide)).2 (by decide)⟩

/-- C10: an error with no numeric status whose lowercased message contains
`400`, `401`, `403`, `404` or `validation` is rethrown after a single
attempt with no retry, while a status-less error without such text is
treated as transient and retried. -/
theorem C10_message_text_terminal :
    (∀ (α : Type) (op : Nat → Except RetryErr α) (mr : Nat) (d : ℚ)
        (e : RetryErr),
      1 ≤ mr → op 1 = .error e → e.status = none →
      msgHasTerminalText e.message = true →
      withRetry op mr d =
        { result := .err e, retryCalls := [], delays := [],
          attemptsUsed := 1 }) ∧
    (∀ (d : ℚ) (e : RetryErr), e.status = none →
      msgHasTerminalText e.message = false →
      withRetry (fun n => if n = 1 then Except.error e else Except.ok 0) 2 d =
        { result := .ok 0, retryCalls := [(1, e)],
          delays := [min (d * 1) MAX_BACKOFF_MS], attemptsUsed := 2 }) := by
  constructor
  · intro α op mr d e hmr hop hst hmsg
    unfold withRetry
    rw [if_neg (by omega)]
    cases hr : mr - 1 with
    | zero => simp [withRetryGo, hop]
    | succ r => simp [withRetryGo, hop, hst, statusIs4xx, hmsg]
  · intro d e hst hmsg
    norm_num [withRetry, withRetryGo, hst, hmsg, statusIs4xx]
    intro h
    exact Option.noConfusion h

theorem C10_witness :
    withRetry opMsg404 3 1000 =
      { result := .err eMsg404, retryCalls := [], delays := [],
        attemptsUsed := 1 } ∧
    withRetry (fun n => if n = 1 then Except.error eNet else Except.ok 0) 2 1000 =
      { result := .ok 0, retryCalls := [(1, eNet)],
        delays := [min ((1000 : ℚ) * 1) MAX_BACKOFF_MS], attemptsUsed := 2 } :=
  ⟨C10_message_text_terminal.1 Nat opMsg404 3 1000 eMsg404 (by decide) rfl rfl
      (by decide),
    C10_message_text_terminal.2 1000 eNet (by decide) (by decide)⟩


/-- C3 amended: while a record's synchronizer is dirty, processing an
external push leaves the locally-displayed snapshot unchanged; while it is
not dirty, a push whose value differs from the previously observed external
snapshot replaces the local and last-confirmed snapshots and clears the
per-field validation and touched state (a push equal to the previously
observed snapshot is a no-op; see the counterexample). -/
theorem C3_dirty_wins_reconciliation (s : RowState) (pushed : StyleRecord) :
    (s.hasUnsavedChanges = true →
      (applyExternalPush s pushed).localStyle = s.localStyle) ∧
    (s.hasUnsavedChanges = false → pushed ≠ s.prevStyleRef →
      (applyExternalPush s pushed).localStyle = pushed ∧
      (applyExternalPush s pushed).prevStyleRef = pushed ∧
      (applyExternalPush s pushed).styleProp = pushed ∧
      (applyExternalPush s pushed).errors = [] ∧
      (applyExternalPush s pushed).touchedFields = []) := by
  constructor
  · intro hd
    simp only [applyExternalPush, hd]
    split_ifs <;> simp_all
  · intro hd hne
    simp only [applyExternalPush, hd]
    simp [hne]

/-- C3 witness. -/
theorem C3_witness :
    (applyExternalPush rowDirty recAlt).localStyle = rowDirty.localStyle ∧
    (applyExternalPush (initRow recBase) recAlt).localStyle = recAlt :=
  ⟨(C3_dirty_wins_reconciliation rowDirty recAlt).1 (by decide),
    ((C3_dirty_wins_reconciliation (initRow recBase) recAlt).2 (by decide)
      (by decide)).1⟩

/-- C3 counterexample: a reachable idle (not dirty) state — reached by
editing `units`, saving successfully and letting the status timer expire,
while the parent prop has not yet caught up — in which processing a push
carrying the old record value does not replace the local snapshot with the
pushed value, because the push equals the previously observed external
snapshot. -/
theorem C3_counterexample :
    rowAfterOwnSave.hasUnsavedChanges = false ∧
    rowAfterOwnSave.saveStatus = .idle ∧
    (applyExternalPush rowAfterOwnSave recBase).localStyle ≠ recBase := by
  decide

/-- C7: when the in-flight persist of a dirty, validation-clean edit fails,
the synchronizer performs the persist call, reverts the local snapshot to
the last-confirmed (prop) snapshot, clears the dirty flag, enters the error
status, and the scheduled display-delay timeout returns it to idle. -/
theorem C7_failed_save_reverts (s : RowState)
    (hdiff : s.debouncedStyle ≠ s.styleProp)
    (hdirty : s.hasUnsavedChanges = true)
    (hvalid : hasValidationErrors s.localStyle = false) :
    (performSave s false).2 = true ∧
    (performSave s false).1.localStyle = s.styleProp ∧
    (performSave s false).1.hasUnsavedChanges = false ∧
    (performSave s false).1.saveStatus = .error ∧
    (statusTimeout (performSave s false).1).saveStatus = .idle := by
  simp [performSave, statusTimeout, hdiff, hdirty, hvalid]

/-- C7 witness. -/
theorem C7_witness :
    (performSave rowReadyToSave false).2 = true ∧
    (performSave rowReadyToSave false).1.localStyle = rowReadyToSave.styleProp ∧
    (performSave rowReadyToSave false).1.hasUnsavedChanges = false ∧
    (performSave rowReadyToSave false).1.saveStatus = .error ∧
    (statusTimeout (performSave rowReadyToSave false).1).saveStatus = .idle :=
  C7_failed_save_reverts rowReadyToSave (by decide) (by decide) (by decide)

/-- C6 amended: when the debounce settles with the local snapshot differing
from the last-confirmed snapshot, a persist call is made exactly when the
five per-field rules checked by the save gate (`units`, `price`, `rate`,
`extraCost`, `sellingPrice` — `pack` is not checked) all pass on the local
snapshot; if any of those five fails, the synchronizer enters the error
state with no persist call, the dirty flag kept and the local edit
preserved. -/
theorem C6_save_gate (s : RowState) (saveSucceeds : Bool)
    (hdiff : s.debouncedStyle ≠ s.styleProp)
    (hdirty : s.hasUnsavedChanges = true) :
    ((performSave s saveSucceeds).2 = !hasValidationErrors s.localStyle) ∧
    (hasValidationErrors s.localStyle = true →
      (performSave s saveSucceeds).2 = false ∧
      (performSave s saveSucceeds).1.saveStatus = .error ∧
      (performSave s saveSucceeds).1.hasUnsavedChanges = true ∧
      (performSave s saveSucceeds).1.localStyle = s.localStyle) := by
  constructor
  · cases hv : hasValidationErrors s.localStyle with
    | true => simp [performSave, hdiff, hdirty, hv]
    | false =>
      cases saveSucceeds <;> simp [performSave, hdiff, hdirty, hv]
  · intro hv
    simp [performSave, hdiff, hdirty, hv]

/-- C6 witness. -/
theorem C6_witness :
    (performSave rowInvalidEdit true).2 =
      !hasValidationErrors rowInvalidEdit.localStyle ∧
    (performSave rowInvalidEdit true).2 = false ∧
    (performSave rowInvalidEdit true).1.saveStatus = .error ∧
    (performSave rowInvalidEdit true).1.hasUnsavedChanges = true ∧
    (performSave rowInvalidEdit true).1.localStyle = rowInvalidEdit.localStyle := by
  have h := C6_save_gate rowInvalidEdit true (by decide) (by decide)
  exact ⟨h.1, h.2 (by decide)⟩

/-- C6 counterexample: a reachable state (server record with `pack = 0`,
then a valid `units` edit) whose local snapshot fails the six-rule composite
record validation, yet the settling debounce still performs the persist
call — the save gate does not run the `pack` rule. -/
theorem C6_counterexample :
    (validateStyleData rowPack0Edited.localStyle.toValidationData).isValid = false ∧
    hasValidationErrors rowPack0Edited.localStyle = false ∧
    (debounceFire rowPack0Edited true).2 = true := by
  decide

end MarginTracker
